import Mathlib

/-!  Verification development for the interpretive core of the Time Warp
     runtime (`src/main.rs`).  The programs exercised by the claims are pure
     ASCII, so Rust byte indices coincide with character indices; Rust `f32`
     values are modelled by exact rationals, which agrees with `f32`
     arithmetic and `Display` on the small integral values the claims
     exercise (non-integral formatting is not exercised by any claim). -/

namespace TimeWarp

/-- `str::to_uppercase` (ASCII input). -/
def sUpper (s : String) : String := ⟨s.data.map Char.toUpper⟩

/-- `str::to_lowercase` (ASCII input). -/
def sLower (s : String) : String := ⟨s.data.map Char.toLower⟩

/-- `str::trim` (ASCII whitespace). -/
def sTrim (s : String) : String :=
  ⟨((s.data.dropWhile Char.isWhitespace).reverse.dropWhile Char.isWhitespace).reverse⟩

/-- `str::starts_with`. -/
def sStartsWith (s p : String) : Bool := p.data.isPrefixOf s.data

/-- `str::ends_with`. -/
def sEndsWith (s p : String) : Bool := p.data.isSuffixOf s.data

/-- `str::contains` with a `char` pattern. -/
def sContainsChar (s : String) (c : Char) : Bool := s.data.contains c

/-- Worker for `sSplitOn`: split at leftmost non-overlapping occurrences.
    Each step consumes at least one character, so the structural fuel (the
    input length) is never exhausted and the fuel-out value is unreachable. -/
def splitOnAux (pat : List Char) : Nat → List Char → List Char → List (List Char)
  | _, [], acc => [acc.reverse]
  | 0, l, acc => [acc.reverse ++ l]
  | fuel + 1, c :: rest, acc =>
    if pat.isPrefixOf (c :: rest) then
      acc.reverse :: splitOnAux pat fuel (rest.drop (pat.length - 1)) []
    else
      splitOnAux pat fuel rest (c :: acc)

/-- `str::split` with a string pattern, collected into a list. -/
def sSplitOn (s pat : String) : List String :=
  if pat.data = [] then [s]
  else (splitOnAux pat.data s.data.length s.data []).map fun l => ⟨l⟩

/-- `str::contains` with a (nonempty) string pattern. -/
def sContainsSub (s pat : String) : Bool := 2 ≤ (sSplitOn s pat).length

/-- `str::find` with a `char` pattern. -/
def sFindChar (s : String) (c : Char) : Option Nat := s.data.findIdx? (· = c)

/-- Worker for `sFindSub`. -/
def findSubAux (pat : List Char) : List Char → Nat → Option Nat
  | [], k => if pat = [] then some k else none
  | c :: rest, k => if pat.isPrefixOf (c :: rest) then some k else findSubAux pat rest (k + 1)

/-- `str::find` with a string pattern. -/
def sFindSub (s pat : String) : Option Nat := findSubAux pat.data s.data 0

/-- Worker for `splitWs`. -/
def splitWsAux : List Char → List Char → List String
  | [], acc => if acc = [] then [] else [⟨acc.reverse⟩]
  | c :: rest, acc =>
    if c.isWhitespace then
      if acc = [] then splitWsAux rest [] else ⟨acc.reverse⟩ :: splitWsAux rest []
    else splitWsAux rest (c :: acc)

/-- `str::split_whitespace`, collected into a list. -/
def splitWs (s : String) : List String := splitWsAux s.data []

/-- `str::trim_end_matches` with a `char` pattern. -/
def trimEndMatches (s : String) (c : Char) : String :=
  ⟨(s.data.reverse.dropWhile (· = c)).reverse⟩

/-- `&s[k..]`; `none` models the Rust panic when `k` is out of range. -/
def sliceFrom (s : String) (k : Nat) : Option String :=
  if k ≤ s.data.length then some ⟨s.data.drop k⟩ else none

/-- `&s[a..b]`; `none` models the Rust panic. -/
def sliceRange (s : String) (a b : Nat) : Option String :=
  if a ≤ b ∧ b ≤ s.data.length then some ⟨(s.data.take b).drop a⟩ else none

/-- `&s[..k]`, at call sites where `k` comes from a successful `find`. -/
def sliceTo (s : String) (k : Nat) : String := ⟨s.data.take k⟩

/-- `str::lines`: split on `'\n'`, drop a final empty piece, strip a
    trailing `'\r'` from each line. -/
def rustLines (s : String) : List String :=
  if s.data = [] then []
  else
    let ps := sSplitOn s "\n"
    let ps := if sEndsWith s "\n" then ps.dropLast else ps
    ps.map fun l => if sEndsWith l "\r" then ⟨l.data.dropLast⟩ else l

/-- Numeric value of a digit string. -/
def digitsVal (cs : List Char) : Nat := cs.foldl (fun a c => a * 10 + (c.toNat - 48)) 0

/-- `str::parse::<u32>`. -/
def parseU32 (s : String) : Option Nat :=
  let cs := match s.data with | '+' :: t => t | t => t
  if cs ≠ [] ∧ cs.all (·.isDigit) ∧ digitsVal cs < 2 ^ 32 then some (digitsVal cs) else none

/-- `str::parse::<u8>`. -/
def parseU8 (s : String) : Option Nat :=
  let cs := match s.data with | '+' :: t => t | t => t
  if cs ≠ [] ∧ cs.all (·.isDigit) ∧ digitsVal cs < 2 ^ 8 then some (digitsVal cs) else none

/-- `str::parse::<f32>`, restricted to the signed integer literals the claim
    programs contain; such values and their sums are represented exactly by
    `f32`, so `ℤ` models them faithfully (fractional or exponent literals,
    which no claim exercises, are out of scope of this embedding). -/
def parseNum (s : String) : Option ℤ :=
  let p : ℤ × List Char := match s.data with
    | '-' :: t => (-1, t)
    | '+' :: t => (1, t)
    | t => (1, t)
  let sgn := p.1
  let cs := p.2
  if cs ≠ [] ∧ cs.all (·.isDigit) then some (sgn * (digitsVal cs : ℤ)) else none

/-- `f32` `Display` on the integral values the claim programs produce. -/
def numToString (n : ℤ) : String := toString n

/-- `HashMap::insert` on an association list (replaces an existing key). -/
def alInsert {κ α : Type} [DecidableEq κ] : List (κ × α) → κ → α → List (κ × α)
  | [], k, v => [(k, v)]
  | (k', v') :: t, k, v => if k' = k then (k, v) :: t else (k', v') :: alInsert t k v

/-- `HashMap::get` on an association list. -/
def alLookup {κ α : Type} [DecidableEq κ] : List (κ × α) → κ → Option α
  | [], _ => none
  | (k', v') :: t, k => if k' = k then some v' else alLookup t k

/-- `HashMap::get_mut` followed by an update; absent keys are untouched. -/
def alModify {κ α : Type} [DecidableEq κ] : List (κ × α) → κ → (α → α) → List (κ × α)
  | [], _, _ => []
  | (k', v') :: t, k, f => if k' = k then (k', f v') :: t else (k', v') :: alModify t k f

/-- Insert into a key-sorted list after all entries with key ≤ the new key. -/
def insertByKey (x : Nat × String) : List (Nat × String) → List (Nat × String)
  | [] => [x]
  | y :: ys => if y.1 ≤ x.1 then y :: insertByKey x ys else x :: y :: ys

/-- Stable ascending sort by key (`Vec::sort_by_key`). -/
def stableSortByKey (ls : List (Nat × String)) : List (Nat × String) :=
  ls.foldl (fun acc x => insertByKey x acc) []

/-- `TurtleState` (src 5–12); the color field is never written by
    `execute_turtle_command`, so it is not represented. -/
structure TurtleState where
  x : ℤ
  y : ℤ
  angle : ℤ
  pen_down : Bool
deriving DecidableEq

/-- `execute_turtle_command` (src 899–950).  `cosD`/`sinD` stand for the `f32`
    cosine/sine applied to the heading converted to radians; they are abstract
    parameters because no claim depends on their values.  The last component is
    `self.output`, the app-level status channel the engine appends to. -/
def execute_turtle_command (cosD sinD : ℤ → ℤ) (command : String)
    (ts : TurtleState) (cmds : List String) (appOut : String) :
    TurtleState × List String × String :=
  let cmd := sUpper command
  if sStartsWith cmd "FORWARD" || sStartsWith cmd "FD" then
    match (splitWs cmd)[1]? with
    | some dstr =>
      match parseNum dstr with
      | some d =>
        let nx := ts.x + d * cosD ts.angle
        let ny := ts.y + d * sinD ts.angle
        let cmds' :=
          if ts.pen_down then
            cmds ++ ["line " ++ numToString ts.x ++ " " ++ numToString ts.y ++ " "
                      ++ numToString nx ++ " " ++ numToString ny]
          else cmds
        ({ts with x := nx, y := ny}, cmds',
          appOut ++ "Turtle: forward " ++ numToString d ++ "\n")
      | none => (ts, cmds, appOut)
    | none => (ts, cmds, appOut)
  else if sStartsWith cmd "RIGHT" || sStartsWith cmd "RT" then
    match (splitWs cmd)[1]? with
    | some astr =>
      match parseNum astr with
      | some a =>
        ({ts with angle := ts.angle + a}, cmds,
          appOut ++ "Turtle: right " ++ numToString a ++ "\n")
      | none => (ts, cmds, appOut)
    | none => (ts, cmds, appOut)
  else if sStartsWith cmd "LEFT" || sStartsWith cmd "LT" then
    match (splitWs cmd)[1]? with
    | some astr =>
      match parseNum astr with
      | some a =>
        ({ts with angle := ts.angle - a}, cmds,
          appOut ++ "Turtle: left " ++ numToString a ++ "\n")
      | none => (ts, cmds, appOut)
    | none => (ts, cmds, appOut)
  else if cmd == "PENUP" || cmd == "PU" then
    ({ts with pen_down := false}, cmds, appOut ++ "Turtle: pen up\n")
  else if cmd == "PENDOWN" || cmd == "PD" then
    ({ts with pen_down := true}, cmds, appOut ++ "Turtle: pen down\n")
  else if sStartsWith cmd "HOME" then
    ({ts with x := 200, y := 200, angle := 0}, cmds, appOut ++ "Turtle: home\n")
  else if sStartsWith cmd "CLEARSCREEN" || cmd == "CS" then
    ({ts with x := 200, y := 200, angle := 0}, [], appOut ++ "Turtle: clear screen\n")
  else (ts, cmds, appOut)

abbrev VarMap := List (String × String)

/-- `execute_print` (src 387–408); reads the variable store, appends to the
    transcript. -/
def execute_print (vars : VarMap) (out : List String) (args : String) : List String :=
  if sTrim args == "" then out ++ [""]
  else
    let quoted : Option String :=
      match sFindChar args '"' with
      | some q1 =>
        match sFindChar ⟨args.data.drop (q1 + 1)⟩ '"' with
        | some q2 => some ⟨(args.data.drop (q1 + 1)).take q2⟩
        | none => none
      | none => none
    match quoted with
    | some text => out ++ [text]
    | none =>
      let var_name := sTrim args
      match alLookup vars var_name with
      | some v => out ++ [v]
      | none => out ++ ["Undefined variable: " ++ var_name]

/-- `execute_let` (src 410–419). -/
def execute_let (vars : VarMap) (out : List String) (args : String) :
    VarMap × List String :=
  match sFindChar args '=' with
  | some eq_pos =>
    let var_part := sTrim (sliceTo args eq_pos)
    let value_part := sTrim ⟨args.data.drop (eq_pos + 1)⟩
    match (splitWs var_part).getLast? with
    | some var_name =>
      (alInsert vars var_name value_part, out ++ [var_name ++ " = " ++ value_part])
    | none => (vars, out)
  | none => (vars, out)

/-- The prompt `execute_input` extracts from its argument (src 423–435). -/
def inputPromptOf (args : String) : String :=
  if sContainsChar args '"' then
    match sFindChar args '"' with
    | some q1 =>
      match sFindChar ⟨args.data.drop (q1 + 1)⟩ '"' with
      | some q2 => ⟨(args.data.drop (q1 + 1)).take q2⟩
      | none => "Input:"
    | none => "Input:"
  else "Input:"

/-- The target variable `execute_input` extracts: the first whitespace token
    neither starting nor ending with a quote, with fallback `"INPUT"`
    (src 438–441). -/
def inputVarOf (args : String) : String :=
  (((splitWs args).find? fun w => !sStartsWith w "\"" && !sEndsWith w "\"").getD "INPUT")

/-- `evaluate_condition` (src 452–467). -/
def evaluate_condition (vars : VarMap) (condition : String) : Bool :=
  if sContainsSub condition "= " then
    match sSplitOn condition "= " with
    | [l, r] =>
      match alLookup vars (sTrim l) with
      | some lv => lv == sTrim r
      | none => true
    | _ => true
  else true

/-- `execute_basic_command` (src 469–477); `none` models a Rust panic from the
    `&command[6..]` slice. -/
def execute_basic_command (vars : VarMap) (out : List String) (command : String) :
    Option (VarMap × List String) :=
  let cmd_upper := sUpper command
  if sStartsWith cmd_upper "PRINT" then
    (sliceFrom command 6).map fun a => (vars, execute_print vars out a)
  else if sStartsWith cmd_upper "LET " then
    (sliceFrom command 4).map fun a => execute_let vars out a
  else some (vars, out)

abbrev ForFrame := String × ℤ × ℤ × ℤ

/-- `execute_for` (src 479–490); the top of the loop stack is the list head. -/
def execute_for (vars : VarMap) (out : List String) (args : String)
    (for_stack : List ForFrame) : VarMap × List String × List ForFrame :=
  match splitWs args with
  | v :: e :: sv :: t :: ev :: _ =>
    if e == "=" && t == "TO" then
      match parseNum sv, parseNum ev with
      | some start, some endv =>
        (alInsert vars v (numToString start),
         out ++ ["FOR " ++ v ++ " = " ++ numToString start ++ " TO " ++ numToString endv],
         (v, start, endv, 1) :: for_stack)
      | _, _ => (vars, out, for_stack)
    else (vars, out, for_stack)
  | _ => (vars, out, for_stack)

/-- `execute_next` (src 492–510); the `Bool` is its "continue the loop"
    result. -/
def execute_next (vars : VarMap) (out : List String) (for_stack : List ForFrame) :
    VarMap × List String × List ForFrame × Bool :=
  match for_stack with
  | [] => (vars, out, [], false)
  | (v, current, endv, step) :: rest =>
    let newc := current + step
    if newc ≤ endv then
      (alInsert vars v (numToString newc),
       out ++ ["NEXT " ++ v ++ " = " ++ numToString newc],
       (v, newc, endv, step) :: rest, true)
    else (vars, out ++ ["END FOR " ++ v], rest, false)

/-- Loop body of the `REPEAT` command (src 364–374): run
    `execute_basic_command` `n` times. -/
def repeatCmd : Nat → VarMap → List String → String → Option (VarMap × List String)
  | 0, v, o, _ => some (v, o)
  | n + 1, v, o, c =>
    match execute_basic_command v o c with
    | some (v', o') => repeatCmd n v' o' c
    | none => none

/-- Worker for `skipToWend`: the remaining list is `lines.drop (i + 1)`, so
    the emptiness test is the source's `i + 1 < lines.len()` bound check. -/
def skipToWendAux : List (Nat × String) → Nat → Nat → Nat
  | [], i, _ => i
  | x :: rest, i, nest =>
    if nest = 0 then i
    else
      let cmdU := sUpper x.2
      let nest' := if sStartsWith cmdU "WHILE " then nest + 1
                   else if cmdU == "WEND" then nest - 1 else nest
      skipToWendAux rest (i + 1) nest'

/-- Forward scan of the false-`WHILE` branch (src 192–202): returns the final
    cursor (the matching `WEND`, or the last scanned line). -/
def skipToWend (lines : List (Nat × String)) (i nest : Nat) : Nat :=
  skipToWendAux (lines.drop (i + 1)) i nest

/-- Backward scan of the `WEND` branch (src 207–217); the scan stays within
    `0 ≤ wi ≤` the initial cursor, so the lookup default is never used. -/
def findWhileBack (lines : List (Nat × String)) : Nat → Nat → Nat
  | 0, _ => 0
  | wi + 1, nest =>
    if nest = 0 then wi + 1
    else
      let cmdU := sUpper ((lines.get? wi).getD (0, "")).2
      let nest' := if cmdU == "WEND" then nest + 1
                   else if sStartsWith cmdU "WHILE " then nest - 1 else nest
      findWhileBack lines wi nest' 

/-- Interpreter state of `execute_tw_basic` (src 85–385) together with the
    pieces of `TimeWarpApp` state the interpreter reads or writes. -/
structure BState where
  lines : List (Nat × String)
  line_numbers : List (Nat × Nat)
  i : Nat
  output : List String
  vars : VarMap
  for_stack : List ForFrame
  gosub_stack : List Nat
  waiting_for_input : Bool
  input_prompt : String
  current_input_var : String
  turtle : TurtleState
  turtle_commands : List String
  app_output : String
deriving DecidableEq

/-- `execute_input` (src 421–450): records the suspension and appends the
    prompt (with a trailing space) to the transcript.  The cursor is advanced
    by the caller. -/
def execute_input (st : BState) (args : String) : BState :=
  let prompt := inputPromptOf args
  let var_name := inputVarOf args
  {st with input_prompt := prompt, current_input_var := var_name,
           waiting_for_input := true, output := st.output ++ [prompt ++ " "]}

/-- One iteration of the `execute_tw_basic` dispatch loop (src 119–382) on the
    current line's `command` text; `none` models a Rust panic from an
    out-of-range string slice. -/
def basicStep (cosD sinD : ℤ → ℤ) (st : BState) (command : String) : Option BState :=
  let cmd_upper := sUpper command
  let cmd_trim := sTrim command
  if sStartsWith cmd_upper "PRINT" || sStartsWith cmd_upper "?" then
    (if sStartsWith cmd_upper "?" then sliceFrom command 1 else sliceFrom command 6).map
      fun print_cmd =>
        {st with output := execute_print st.vars st.output (sTrim print_cmd),
                 i := st.i + 1}
  else if sStartsWith cmd_upper "LET " then
    (sliceFrom command 4).map fun args =>
      let r := execute_let st.vars st.output args
      {st with vars := r.1, output := r.2, i := st.i + 1}
  else if sStartsWith cmd_upper "INPUT" then
    (sliceFrom command 6).map fun args => {execute_input st args with i := st.i + 1}
  else if sStartsWith cmd_upper "IF " then
    match sFindSub cmd_upper " THEN " with
    | some then_pos =>
      (sliceRange command 3 then_pos).bind fun condition =>
      (sliceFrom command (then_pos + 6)).bind fun then_part =>
        if evaluate_condition st.vars condition then
          match parseU32 (sTrim then_part) with
          | some n =>
            match alLookup st.line_numbers n with
            | some new_i => some {st with i := new_i}
            | none => some {st with i := st.i + 1}
          | none =>
            (execute_basic_command st.vars st.output (sTrim then_part)).map
              fun r => {st with vars := r.1, output := r.2, i := st.i + 1}
        else some {st with i := st.i + 1}
    | none => some {st with i := st.i + 1}
  else if sStartsWith cmd_upper "GOTO " then
    (sliceFrom command 5).map fun t =>
      match parseU32 (sTrim t) with
      | some n =>
        match alLookup st.line_numbers n with
        | some new_i => {st with i := new_i}
        | none => {st with i := st.i + 1}
      | none => {st with i := st.i + 1}
  else if sStartsWith cmd_upper "GOSUB " then
    (sliceFrom command 6).map fun t =>
      match parseU32 (sTrim t) with
      | some n =>
        let gs := st.i :: st.gosub_stack
        match alLookup st.line_numbers n with
        | some new_i => {st with gosub_stack := gs, i := new_i}
        | none => {st with gosub_stack := gs, i := st.i + 1}
      | none => {st with i := st.i + 1}
  else if cmd_upper == "RETURN" then
    match st.gosub_stack with
    | return_i :: rest => some {st with gosub_stack := rest, i := return_i}
    | [] => some {st with i := st.i + 1}
  else if sStartsWith cmd_upper "FOR " then
    (sliceFrom command 4).map fun args =>
      let r := execute_for st.vars st.output args st.for_stack
      {st with vars := r.1, output := r.2.1, for_stack := r.2.2, i := st.i + 1}
  else if cmd_upper == "NEXT" then
    let r := execute_next st.vars st.output st.for_stack
    some {st with vars := r.1, output := r.2.1, for_stack := r.2.2.1,
                  i := if r.2.2.2 then st.i else st.i + 1}
  else if sStartsWith cmd_upper "WHILE " then
    (sliceFrom command 6).map fun condition =>
      if !(evaluate_condition st.vars condition) then
        {st with i := skipToWend st.lines st.i 1 + 1}
      else {st with i := st.i + 1}
  else if cmd_upper == "WEND" then
    let while_i := findWhileBack st.lines st.i 1
    if while_i < st.i then
      match st.lines.get? while_i with
      | some wl =>
        if sStartsWith (sUpper wl.2) "WHILE " then
          (sliceFrom wl.2 6).map fun condition =>
            if evaluate_condition st.vars condition then {st with i := while_i}
            else {st with i := st.i + 1}
        else some {st with i := st.i + 1}
      | none => some {st with i := st.i + 1}
    else some {st with i := st.i + 1}
  else if sStartsWith cmd_upper "CLS" then
    some {st with output := ["Screen cleared."], i := st.i + 1}
  else if sStartsWith cmd_upper "COLOR " then
    (sliceFrom command 6).map fun cp =>
      match parseU8 (sTrim cp) with
      | some c => {st with output := st.output ++ ["Color set to " ++ toString c], i := st.i + 1}
      | none => {st with i := st.i + 1}
  else if sStartsWith cmd_upper "BEEP" then
    some {st with output := st.output ++ ["BEEP!"], i := st.i + 1}
  else if sStartsWith cmd_upper "SOUND " then
    (sliceFrom command 6).map fun t =>
      {st with output := st.output ++ ["Sound: " ++ t], i := st.i + 1}
  else if sStartsWith cmd_trim "T:" then
    (sliceFrom cmd_trim 2).map fun t =>
      {st with output := st.output ++ ["QUESTION: " ++ sTrim t], i := st.i + 1}
  else if sStartsWith cmd_trim "A:" then
    (sliceFrom cmd_trim 2).map fun t =>
      {st with output := st.output ++ ["ACCEPT: " ++ sTrim t, "(Waiting for user input...)"],
               i := st.i + 1}
  else if sStartsWith cmd_trim "J:" then
    (sliceFrom cmd_trim 2).map fun t =>
      match parseU32 (sTrim t) with
      | some n =>
        match alLookup st.line_numbers n with
        | some new_i => {st with i := new_i}
        | none => {st with i := st.i + 1}
      | none => {st with i := st.i + 1}
  else if sStartsWith cmd_trim "M:" then
    (sliceFrom cmd_trim 2).map fun t =>
      {st with output := st.output ++ ["MATCH: " ++ sTrim t], i := st.i + 1}
  else if sStartsWith cmd_trim "U:" then
    (sliceFrom cmd_trim 2).map fun t =>
      {st with output := st.output ++ ["USE: " ++ sTrim t], i := st.i + 1}
  else if sStartsWith cmd_trim "Y:" then
    (sliceFrom cmd_trim 2).map fun t =>
      {st with output := st.output ++ ["YES: " ++ sTrim t], i := st.i + 1}
  else if sStartsWith cmd_trim "N:" then
    (sliceFrom cmd_trim 2).map fun t =>
      {st with output := st.output ++ ["NO: " ++ sTrim t], i := st.i + 1}
  else if sStartsWith cmd_upper "FORWARD " || sStartsWith cmd_upper "FD " then
    (if sStartsWith cmd_upper "FORWARD " then sliceFrom command 8 else sliceFrom command 3).map
      fun dstr =>
        match parseNum (sTrim dstr) with
        | some d =>
          let r := execute_turtle_command cosD sinD ("FORWARD " ++ numToString d)
                     st.turtle st.turtle_commands st.app_output
          {st with turtle := r.1, turtle_commands := r.2.1, app_output := r.2.2,
                   output := st.output ++ ["Turtle forward " ++ numToString d], i := st.i + 1}
        | none => {st with i := st.i + 1}
  else if sStartsWith cmd_upper "BACKWARD " || sStartsWith cmd_upper "BK " then
    (if sStartsWith cmd_upper "BACKWARD " then sliceFrom command 9 else sliceFrom command 3).map
      fun dstr =>
        match parseNum (sTrim dstr) with
        | some d =>
          let r := execute_turtle_command cosD sinD ("BACKWARD " ++ numToString d)
                     st.turtle st.turtle_commands st.app_output
          {st with turtle := r.1, turtle_commands := r.2.1, app_output := r.2.2,
                   output := st.output ++ ["Turtle backward " ++ numToString d], i := st.i + 1}
        | none => {st with i := st.i + 1}
  else if sStartsWith cmd_upper "RIGHT " || sStartsWith cmd_upper "RT " then
    (if sStartsWith cmd_upper "RIGHT " then sliceFrom command 6 else sliceFrom command 3).map
      fun astr =>
        match parseNum (sTrim astr) with
        | some a =>
          let r := execute_turtle_command cosD sinD ("RIGHT " ++ numToString a)
                     st.turtle st.turtle_commands st.app_output
          {st with turtle := r.1, turtle_commands := r.2.1, app_output := r.2.2,
                   output := st.output ++ ["Turtle right " ++ numToString a], i := st.i + 1}
        | none => {st with i := st.i + 1}
  else if sStartsWith cmd_upper "LEFT " || sStartsWith cmd_upper "LT " then
    (if sStartsWith cmd_upper "LEFT " then sliceFrom command 5 else sliceFrom command 3).map
      fun astr =>
        match parseNum (sTrim astr) with
        | some a =>
          let r := execute_turtle_command cosD sinD ("LEFT " ++ numToString a)
                     st.turtle st.turtle_commands st.app_output
          {st with turtle := r.1, turtle_commands := r.2.1, app_output := r.2.2,
                   output := st.output ++ ["Turtle left " ++ numToString a], i := st.i + 1}
        | none => {st with i := st.i + 1}
  else if cmd_upper == "PENUP" || cmd_upper == "PU" then
    let r := execute_turtle_command cosD sinD "PENUP" st.turtle st.turtle_commands st.app_output
    some {st with turtle := r.1, turtle_commands := r.2.1, app_output := r.2.2,
                  output := st.output ++ ["Pen up"], i := st.i + 1}
  else if cmd_upper == "PENDOWN" || cmd_upper == "PD" then
    let r := execute_turtle_command cosD sinD "PENDOWN" st.turtle st.turtle_commands st.app_output
    some {st with turtle := r.1, turtle_commands := r.2.1, app_output := r.2.2,
                  output := st.output ++ ["Pen down"], i := st.i + 1}
  else if cmd_upper == "HOME" then
    let r := execute_turtle_command cosD sinD "HOME" st.turtle st.turtle_commands st.app_output
    some {st with turtle := r.1, turtle_commands := r.2.1, app_output := r.2.2,
                  output := st.output ++ ["Turtle home"], i := st.i + 1}
  else if cmd_upper == "CLEARSCREEN" || cmd_upper == "CS" then
    let r := execute_turtle_command cosD sinD "CLEARSCREEN" st.turtle st.turtle_commands
               st.app_output
    some {st with turtle := r.1, turtle_commands := r.2.1, app_output := r.2.2,
                  output := st.output ++ ["Screen cleared"], i := st.i + 1}
  else if sStartsWith cmd_upper "SETPENCOLOR " || sStartsWith cmd_upper "SETPC " then
    (if sStartsWith cmd_upper "SETPENCOLOR " then sliceFrom command 12 else sliceFrom command 6).map
      fun color =>
        {st with output := st.output ++ ["Pen color set to " ++ color], i := st.i + 1}
  else if sStartsWith cmd_upper "MAKE " then
    (sliceFrom command 5).map fun rest =>
      match sFindChar rest '"' with
      | some q =>
        let var_name := sTrim (sliceTo rest q)
        match sFindChar ⟨rest.data.drop (q + 1)⟩ '"' with
        | some e =>
          let value : String := ⟨(rest.data.drop (q + 1)).take e⟩
          {st with vars := alInsert st.vars var_name value,
                   output := st.output ++ [var_name ++ " = \"" ++ value ++ "\""],
                   i := st.i + 1}
        | none => {st with i := st.i + 1}
      | none => {st with i := st.i + 1}
  else if sStartsWith cmd_upper "REPEAT " then
    (sliceFrom command 7).bind fun rest =>
      match sFindChar rest ' ' with
      | some sp =>
        match parseU32 (sTrim (sliceTo rest sp)) with
        | some count =>
          (sliceFrom command (7 + sp + 1)).bind fun repeat_cmd =>
            (repeatCmd count st.vars st.output (sTrim repeat_cmd)).map
              fun r => {st with vars := r.1, output := r.2, i := st.i + 1}
        | none => some {st with i := st.i + 1}
      | none => some {st with i := st.i + 1}
  else if !(command == "") then
    some {st with output := st.output ++ ["Unknown command: " ++ command], i := st.i + 1}
  else
    some {st with i := st.i + 1}

/-- The parsing pass of `execute_tw_basic` (src 93–112): skip blank/comment
    lines, read an optional leading integer label, register labelled lines in
    the jump index under their raw source index. -/
def parseLines (code : String) : List (Nat × String) × List (Nat × Nat) :=
  ((rustLines code).enum).foldl
    (fun acc p =>
      let line := sTrim p.2
      if line == "" || sStartsWith line "REM" || sStartsWith line "'" then acc
      else
        match sFindChar line ' ' with
        | some sp =>
          match parseU32 (sliceTo line sp) with
          | some n => (acc.1 ++ [(n, sTrim ⟨line.data.drop sp⟩)], alInsert acc.2 n p.1)
          | none => (acc.1 ++ [(p.1, line)], acc.2)
        | none => (acc.1 ++ [(p.1, line)], acc.2))
    ([], [])

/-- The conditional sort of `execute_tw_basic` (src 114–117). -/
def sortLines (ls : List (Nat × String)) : List (Nat × String) :=
  if ls.any (fun p => p.1 > 0) then stableSortByKey ls else ls

/-- Initial interpreter state for a fresh `TimeWarpApp` running `code`
    (src 85–118 together with the `Default` instance, src 36–65). -/
def initBState (code : String) : BState :=
  let r := parseLines code
  { lines := sortLines r.1, line_numbers := r.2, i := 0, output := [], vars := [],
    for_stack := [], gosub_stack := [], waiting_for_input := false, input_prompt := "",
    current_input_var := "",
    turtle := {x := 200, y := 200, angle := 0, pen_down := true},
    turtle_commands := [], app_output := "" }

/-- Result of running the interpreter loop with fuel: normal completion,
    a Rust panic, or fuel exhausted with the state reached so far (the source
    loop has no internal bound, src 52 of the spec notwithstanding). -/
inductive RunRes where
  | done (st : BState)
  | crash
  | fuelOut (st : BState)
deriving DecidableEq

/-- The `while i < lines.len()` loop of `execute_tw_basic` (src 119–382). -/
def basicLoop (cosD sinD : ℤ → ℤ) : Nat → BState → RunRes
  | 0, st => .fuelOut st
  | fuel + 1, st =>
    if h : st.i < st.lines.length then
      match basicStep cosD sinD st (st.lines.get ⟨st.i, h⟩).2 with
      | some st' => basicLoop cosD sinD fuel st'
      | none => .crash
    else .done st

/-- `execute_tw_basic` (src 85–385) from a fresh app state. -/
def execute_tw_basic (cosD sinD : ℤ → ℤ) (fuel : Nat) (code : String) : RunRes :=
  basicLoop cosD sinD fuel (initBState code)

/-- The transcript lines of a run, when it did not panic. -/
def RunRes.outputLines : RunRes → Option (List String)
  | .done st => some st.output
  | .fuelOut st => some st.output
  | .crash => none

/-- Whether the run terminated normally. -/
def RunRes.isDone : RunRes → Bool
  | .done _ => true
  | _ => false

/-- The execution cursor reached, when the run did not panic. -/
def RunRes.cursor : RunRes → Option Nat
  | .done st => some st.i
  | .fuelOut st => some st.i
  | .crash => none

/-- A variable's value in the reached state, when the run did not panic. -/
def RunRes.varValue : RunRes → String → Option String
  | .done st, k => alLookup st.vars k
  | .fuelOut st, k => alLookup st.vars k
  | .crash, _ => none

/-- State of `execute_tw_prolog` (src 662–797): the clause database being
    built, the transcript, and the app input-suspension fields the `readln`
    branch writes. -/
structure PState where
  db : List (String × List String)
  output : List String
  waiting_for_input : Bool
  input_prompt : String
  current_input_var : String
deriving DecidableEq

/-- One iteration of the `execute_tw_prolog` line loop (src 668–794). -/
def prologStep (st : PState) (raw : String) : PState :=
  let line := sTrim raw
  if line == "" || sStartsWith line "%" || sStartsWith line "/*" then st
  else if sStartsWith (sLower line) "domains" then
    {st with output := st.output ++ ["DOMAINS section:"]}
  else if sStartsWith (sLower line) "predicates" then
    {st with output := st.output ++ ["PREDICATES section:"]}
  else if sStartsWith (sLower line) "goal" then
    {st with output := st.output ++ ["GOAL section:"]}
  else if sStartsWith (sLower line) "clauses" then
    {st with output := st.output ++ ["CLAUSES section:"]}
  else if sContainsChar line '=' && !sContainsSub line ":-" && !sContainsChar line '(' then
    {st with output := st.output ++ ["Domain: " ++ line]}
  else if sContainsChar line '(' && sContainsChar line ')' && !sContainsSub line ":-"
          && !sContainsChar line '.' then
    let pred_name := match sFindChar line '(' with
      | some p => sTrim (sliceTo line p)
      | none => line
    {st with db := alInsert st.db pred_name [],
             output := st.output ++ ["Predicate declared: " ++ pred_name]}
  else if sContainsSub line ":-" then
    match sSplitOn line ":-" with
    | [hd, bd] =>
      let head := sTrim hd
      let body := trimEndMatches (sTrim bd) '.'
      let st := {st with output := st.output ++ ["Rule: " ++ head ++ " :- " ++ body]}
      let pred_name := (sSplitOn head "(").headD head
      {st with db := alModify st.db (sTrim pred_name) (fun cs => cs ++ [head ++ " :- " ++ body])}
    | _ => st
  else if sEndsWith line "." && sContainsChar line '(' then
    let fact := trimEndMatches line '.'
    let st := {st with output := st.output ++ ["Fact: " ++ fact]}
    let pred_name := (sSplitOn fact "(").headD fact
    {st with db := alModify st.db (sTrim pred_name) (fun cs => cs ++ [fact])}
  else if sEndsWith line "." && !sContainsChar line '(' && !sContainsSub line ":-" then
    let query := trimEndMatches line '.'
    let st := {st with output := st.output ++ ["Query: " ++ query]}
    let pred_name := (sSplitOn query "(").headD query
    match alLookup st.db (sTrim pred_name) with
    | some cs =>
      if cs.length ≠ 0 then
        {st with output := st.output
          ++ ["  Found " ++ toString cs.length ++ " clause(s) for " ++ pred_name]
          ++ cs.map (fun c => "    " ++ c)}
      else {st with output := st.output ++ ["  No clauses found for " ++ pred_name]}
    | none => {st with output := st.output ++ ["  Unknown predicate: " ++ pred_name]}
  else if sContainsSub (sLower line) "write(" then
    let content := match sFindChar line '"' with
      | some s1 =>
        match sFindChar ⟨line.data.drop (s1 + 1)⟩ '"' with
        | some e => (⟨(line.data.drop (s1 + 1)).take e⟩ : String)
        | none => "unknown"
      | none => "variable"
    {st with output := st.output ++ ["WRITE: " ++ content]}
  else if sContainsSub (sLower line) "nl" then
    {st with output := st.output ++ ["NEWLINE"]}
  else if sContainsSub (sLower line) "readln(" then
    {st with input_prompt := "Enter value for readln:", current_input_var := "READLN",
             waiting_for_input := true,
             output := st.output ++ ["Enter value for readln: "]}
  else if sContainsChar line '+' || sContainsChar line '-' || sContainsChar line '*'
          || sContainsChar line '/' then
    {st with output := st.output ++ ["Arithmetic expression: " ++ line]}
  else if sContainsChar line '=' || sContainsChar line '>' || sContainsChar line '<' then
    {st with output := st.output ++ ["Comparison: " ++ line]}
  else if !(line == "") && !sEndsWith line "." then
    {st with output := st.output ++ ["Prolog statement: " ++ line]}
  else st

/-- `execute_tw_prolog` (src 662–797) from a fresh app state. -/
def execute_tw_prolog (code : String) : PState :=
  (rustLines code).foldl prologStep
    { db := [], output := [], waiting_for_input := false, input_prompt := "",
      current_input_var := "" }

/-- The slice of `TimeWarpApp` state that `process_user_input` reads and
    writes (src 14–34); `output` is the app console string. -/
structure AppState where
  vars : VarMap
  output : String
  waiting_for_input : Bool
  input_prompt : String
  user_input : String
  current_input_var : String
deriving DecidableEq

/-- `process_user_input` (src 971–995).  `executeCode` stands for the
    `self.execute_code()` call that re-runs the stored source text through the
    dialect dispatcher from the beginning. -/
def process_user_input (executeCode : AppState → AppState) (st : AppState) : AppState :=
  if !(st.user_input == "") then
    let st1 := {st with output := st.output ++ "\n> " ++ st.user_input}
    let st2 :=
      if !(st1.current_input_var == "") then
        {st1 with vars := alInsert st1.vars st1.current_input_var st1.user_input,
                  output := st1.output ++ "\nStored in variable: " ++ st1.current_input_var}
      else {st1 with vars := alInsert st1.vars "INPUT" st1.user_input}
    executeCode {st2 with waiting_for_input := false, input_prompt := "", user_input := "",
                          current_input_var := ""}
  else st

/-- Trivial instantiation of the abstract `f32` trigonometry, used to state
    closed theorems about programs that issue no turtle move. -/
def cosZ : ℤ → ℤ := fun _ => 0

/-- See `cosZ`. -/
def sinZ : ℤ → ℤ := fun _ => 0

/-- C1 probe program: an INPUT line followed by a PRINT line. -/
def progC1 : String := "INPUT \"Name\" N\nPRINT \"X\""

/-- C2 probe program: GOSUB to a subroutine that RETURNs. -/
def progC2 : String := "10 GOSUB 100\n20 PRINT \"done\"\n100 RETURN"

/-- C3 probe program: a comment line precedes a labelled program with a
    forward GOTO. -/
def progC3 : String := "REM c\n10 GOTO 30\n20 PRINT \"S\"\n30 PRINT \"end\""

/-- C4 probe program: the bare PRINT command. -/
def progC4 : String := "PRINT"

/-- C5 probe program: a counted loop from 1 to 3. -/
def progC5 : String := "FOR I = 1 TO 3\nNEXT"

/-- C7 probe program: the fact/query pair named by the claim. -/
def progC7 : String := "bird(tweety).\nbird(tweety)."

/-- C7 amended probe program: declaration, fact, then a parenthesis-free
    query. -/
def progC7q : String := "bird(tweety)\nbird(tweety).\nbird."

/-- The condition evaluator as §4.2.1 of the spec words it (for comparison
    with `evaluate_condition`): split on `"= "`; when exactly two parts result
    and the left part (trimmed) names a known variable, compare the stored
    value with the trimmed right-hand text as strings; every other shape is
    true. -/
def condition_spec (vars : VarMap) (condition : String) : Bool :=
  match sSplitOn condition "= " with
  | [l, r] =>
    match alLookup vars (sTrim l) with
    | some lv => lv == sTrim r
    | none => true
  | _ => true

/-- C1 (counterexample): in `INPUT "Name" N` followed by `PRINT "X"`, the run
    completes, the PRINT line after the INPUT line still contributes `"X"` to
    the transcript, and the transcript's last line is not the prompt — so
    execution does not stop at the INPUT line. -/
theorem c1_counterexample :
    (execute_tw_basic cosZ sinZ 10 progC1).isDone = true
    ∧ (execute_tw_basic cosZ sinZ 10 progC1).outputLines = some ["Name ", "X"]
    ∧ ["Name ", "X"].getLast? ≠ some "Name " :=
  ⟨by rfl, by rfl, by decide⟩

/-- C1 (amended): executing an INPUT line records the Suspension Record
    (prompt and target variable extracted from the argument), appends the
    prompt (with a trailing space) as the transcript's new last line, and then
    advances the cursor, so the interpreter continues with the following
    lines instead of stopping. -/
theorem c1_input_suspends_and_execution_continues
    (cosD sinD : ℤ → ℤ) (st : BState) (command args : String)
    (hp : (sStartsWith (sUpper command) "PRINT" || sStartsWith (sUpper command) "?") = false)
    (hl : sStartsWith (sUpper command) "LET " = false)
    (hi : sStartsWith (sUpper command) "INPUT" = true)
    (ha : sliceFrom command 6 = some args) :
    basicStep cosD sinD st command =
      some {st with waiting_for_input := true,
                    input_prompt := inputPromptOf args,
                    current_input_var := inputVarOf args,
                    output := st.output ++ [inputPromptOf args ++ " "],
                    i := st.i + 1} := by
  simp only [basicStep, hp, hl, hi, ha, Bool.false_eq_true, if_false, if_true,
    Option.map_some', execute_input]

/-- C1 (witness): the amended step theorem applied to the INPUT line of the
    probe program in its initial state. -/
theorem c1_witness :
    basicStep cosZ sinZ (initBState progC1) "INPUT \"Name\" N" =
      some {initBState progC1 with
              waiting_for_input := true,
              input_prompt := inputPromptOf "\"Name\" N",
              current_input_var := inputVarOf "\"Name\" N",
              output := (initBState progC1).output ++ [inputPromptOf "\"Name\" N" ++ " "],
              i := (initBState progC1).i + 1} :=
  c1_input_suspends_and_execution_continues cosZ sinZ (initBState progC1)
    "INPUT \"Name\" N" "\"Name\" N" rfl rfl rfl rfl

/-- C2 (code bug): in `10 GOSUB 100 / 20 PRINT "done" / 100 RETURN`, after the
    GOSUB and the RETURN the cursor is back at position 0 — the GOSUB line
    itself, not one line past it — so the program loops forever (still not
    done after 20 iterations) and `"done"` is never printed. -/
theorem c2_return_jumps_to_gosub_line_itself :
    (execute_tw_basic cosZ sinZ 2 progC2).cursor = some 0
    ∧ (execute_tw_basic cosZ sinZ 20 progC2).isDone = false
    ∧ (execute_tw_basic cosZ sinZ 20 progC2).outputLines = some [] :=
  ⟨by rfl, by rfl, by rfl⟩

/-- C3 (code bug): with a comment line ahead of the program, the jump index
    maps label 30 to its raw source index 3, but the line labelled 30 sits at
    position 2 of the three-element sorted list; `GOTO 30` therefore jumps
    past the end and the run terminates without ever printing `"end"`. -/
theorem c3_jump_index_stores_raw_source_index :
    alLookup (initBState progC3).line_numbers 30 = some 3
    ∧ (initBState progC3).lines = [(10, "GOTO 30"), (20, "PRINT \"S\""), (30, "PRINT \"end\"")]
    ∧ (execute_tw_basic cosZ sinZ 10 progC3).isDone = true
    ∧ (execute_tw_basic cosZ sinZ 10 progC3).outputLines = some [] :=
  ⟨by rfl, by rfl, by rfl, by rfl⟩

/-- C4 (code bug): the one-line program `PRINT` takes the PRINT branch, whose
    `&command[6..]` slice is out of range for the 5-byte command, so the
    interpreter panics instead of emitting a blank line. -/
theorem c4_bare_print_panics :
    execute_tw_basic cosZ sinZ 5 progC4 = .crash := by
  rfl

/-- C5: `FOR I = 1 TO 3` / `NEXT` terminates with transcript
    `FOR I = 1 TO 3`, `NEXT I = 2`, `NEXT I = 3`, `END FOR I` — the `NEXT`
    lines are exactly 2 then 3 and `END FOR I` appears exactly once — and the
    variable `I` holds "1", "2", "3" after the first, second and third loop
    iterations respectively, ending at "3". -/
theorem c5_for_next_sequence :
    (execute_tw_basic cosZ sinZ 10 progC5).isDone = true
    ∧ (execute_tw_basic cosZ sinZ 10 progC5).outputLines
        = some ["FOR I = 1 TO 3", "NEXT I = 2", "NEXT I = 3", "END FOR I"]
    ∧ (execute_tw_basic cosZ sinZ 1 progC5).varValue "I" = some "1"
    ∧ (execute_tw_basic cosZ sinZ 2 progC5).varValue "I" = some "2"
    ∧ (execute_tw_basic cosZ sinZ 3 progC5).varValue "I" = some "3"
    ∧ (execute_tw_basic cosZ sinZ 10 progC5).varValue "I" = some "3" :=
  ⟨by rfl, by rfl, by rfl, by rfl, by rfl, by rfl⟩

/-- C6: the source condition evaluator agrees with the spec's description on
    every condition string and variable store: exactly two `"= "`-split parts
    with a known left variable compare the stored value against the trimmed
    right-hand text as strings; every other shape evaluates to true. -/
theorem c6_condition_evaluator_matches_spec (vars : VarMap) (condition : String) :
    evaluate_condition vars condition = condition_spec vars condition := by
  by_cases h : 2 ≤ (sSplitOn condition "= ").length
  · unfold evaluate_condition condition_spec
    simp [sContainsSub, h]
  · have hb : sContainsSub condition "= " = false := by
      unfold sContainsSub
      simp [h]
    unfold evaluate_condition condition_spec
    rw [hb]
    simp only [Bool.false_eq_true, if_false]
    rcases hs : sSplitOn condition "= " with _ | ⟨a, t⟩
    · rfl
    · rcases t with _ | ⟨b, t2⟩
      · rfl
      · rw [hs] at h
        simp only [List.length_cons] at h
        omega

/-- C7 (counterexample): in `bird(tweety).` followed by `bird(tweety).`, the
    second line contains a parenthesis, so it is classified as a fact, not a
    query: the transcript is two `Fact:` lines, contains no matching-clause
    report, and (the predicate never having been declared) the clause
    database stays empty. -/
theorem c7_counterexample :
    (execute_tw_prolog progC7).output = ["Fact: bird(tweety)", "Fact: bird(tweety)"]
    ∧ (execute_tw_prolog progC7).db = []
    ∧ "  Found 1 clause(s) for bird" ∉ (execute_tw_prolog progC7).output :=
  ⟨by rfl, by rfl, by decide⟩

/-- C7 (amended): clause counting is reported only for parenthesis-free query
    lines — after declaring `bird(tweety)` and asserting the fact
    `bird(tweety).`, the query `bird.` reports exactly one matching clause and
    echoes it — and every line classified as a query whose predicate is not
    registered in the database produces an `  Unknown predicate:` transcript
    line. -/
theorem c7_fact_not_query_and_unknown_predicate :
    ((execute_tw_prolog progC7q).output
        = ["Predicate declared: bird", "Fact: bird(tweety)", "Query: bird",
           "  Found 1 clause(s) for bird", "    bird(tweety)"])
    ∧ ∀ (st : PState) (l : String),
        sTrim l = l →
        (l == "" || sStartsWith l "%" || sStartsWith l "/*") = false →
        sStartsWith (sLower l) "domains" = false →
        sStartsWith (sLower l) "predicates" = false →
        sStartsWith (sLower l) "goal" = false →
        sStartsWith (sLower l) "clauses" = false →
        sContainsChar l '=' = false →
        sContainsChar l '(' = false →
        sContainsSub l ":-" = false →
        sEndsWith l "." = true →
        alLookup st.db
            (sTrim ((sSplitOn (trimEndMatches l '.') "(").headD (trimEndMatches l '.')))
          = none →
        prologStep st l =
          {st with output := st.output
            ++ ["Query: " ++ trimEndMatches l '.',
                "  Unknown predicate: "
                  ++ (sSplitOn (trimEndMatches l '.') "(").headD (trimEndMatches l '.')]} := by
  constructor
  · rfl
  · intro st l hline h0 h1 h2 h3 h4 heq hparen hrule hdot hlook
    simp only [prologStep, hline, h0, h1, h2, h3, h4, heq, hparen, hrule, hdot, hlook,
      Bool.false_and, Bool.and_false, Bool.true_and, Bool.and_true, Bool.not_false,
      Bool.false_eq_true, if_false, if_true, List.append_assoc, List.cons_append,
      List.nil_append]

/-- C7 (witness): the unknown-predicate half of the amended theorem at the
    query `zz.` against an empty clause database. -/
theorem c7_witness :
    prologStep ⟨[], [], false, "", ""⟩ "zz." =
      {(⟨[], [], false, "", ""⟩ : PState) with output :=
        ([] : List String)
          ++ ["Query: " ++ trimEndMatches "zz." '.',
              "  Unknown predicate: "
                ++ (sSplitOn (trimEndMatches "zz." '.') "(").headD (trimEndMatches "zz." '.')]} :=
  c7_fact_not_query_and_unknown_predicate.2 ⟨[], [], false, "", ""⟩ "zz."
    (by rfl) (by rfl) (by rfl) (by rfl) (by rfl) (by rfl) (by rfl) (by rfl) (by rfl)
    (by rfl) (by rfl)

/-- C8: resuming with an empty input value is a no-op — the state (including
    the pending suspension) is returned unchanged and the dispatcher is not
    re-invoked — while a non-empty value binds the input under the recorded
    target variable (or under the sentinel name `INPUT` when none was
    recorded), clears the Suspension Record, and hands the resulting state to
    the dispatcher to re-run the source from the beginning. -/
theorem c8_resume_protocol (executeCode : AppState → AppState) (st : AppState) :
    (st.user_input = "" → process_user_input executeCode st = st)
    ∧ (st.user_input ≠ "" → st.current_input_var ≠ "" →
        process_user_input executeCode st =
          executeCode
            { vars := alInsert st.vars st.current_input_var st.user_input,
              output := st.output ++ "\n> " ++ st.user_input
                        ++ "\nStored in variable: " ++ st.current_input_var,
              waiting_for_input := false, input_prompt := "", user_input := "",
              current_input_var := "" })
    ∧ (st.user_input ≠ "" → st.current_input_var = "" →
        process_user_input executeCode st =
          executeCode
            { vars := alInsert st.vars "INPUT" st.user_input,
              output := st.output ++ "\n> " ++ st.user_input,
              waiting_for_input := false, input_prompt := "", user_input := "",
              current_input_var := "" }) := by
  refine ⟨fun h => ?_, fun h hv => ?_, fun h hv => ?_⟩
  · simp [process_user_input, h]
  · simp [process_user_input, h, hv]
  · simp [process_user_input, h, hv]

/-- C8 (witness): the three cases of the resume theorem at concrete suspended
    states, with the identity dispatcher. -/
theorem c8_witness :
    process_user_input id ⟨[], "out", true, "p", "", "N"⟩
        = (⟨[], "out", true, "p", "", "N"⟩ : AppState)
    ∧ process_user_input id ⟨[], "out", true, "p", "Ada", "N"⟩
        = (⟨[("N", "Ada")], "out\n> Ada\nStored in variable: N", false, "", "", ""⟩ : AppState)
    ∧ process_user_input id ⟨[], "out", true, "p", "Ada", ""⟩
        = (⟨[("INPUT", "Ada")], "out\n> Ada", false, "", "", ""⟩ : AppState) := by
  refine ⟨(c8_resume_protocol id _).1 rfl, ?_, ?_⟩
  · exact ((c8_resume_protocol id ⟨[], "out", true, "p", "Ada", "N"⟩).2.1
      (by decide) (by decide)).trans (by rfl)
  · exact ((c8_resume_protocol id ⟨[], "out", true, "p", "Ada", ""⟩).2.2
      (by decide) rfl).trans (by rfl)

/-- C9: for every turtle pose, segment log and status channel, `HOME` resets
    the position to the canvas centre (200, 200) and the heading to 0 while
    leaving the segment log and the pen state unchanged, and `CLEARSCREEN`
    performs the same reset, empties the segment log, and also leaves the pen
    state unchanged. -/
theorem c9_home_and_clearscreen (cosD sinD : ℤ → ℤ) (ts : TurtleState)
    (cmds : List String) (appOut : String) :
    execute_turtle_command cosD sinD "HOME" ts cmds appOut
        = ({ts with x := 200, y := 200, angle := 0}, cmds, appOut ++ "Turtle: home\n")
    ∧ execute_turtle_command cosD sinD "CLEARSCREEN" ts cmds appOut
        = ({ts with x := 200, y := 200, angle := 0}, ([] : List String),
            appOut ++ "Turtle: clear screen\n") := by
  constructor <;> rfl

/-- C10: a `GOSUB` whose operand parses as an integer that is not a
    registered label still pushes the current cursor (the GOSUB line's own
    position) onto the call stack and falls through to the next line; a
    subsequent `RETURN` with a non-empty stack then sets the cursor to that
    saved position — the GOSUB line itself — rather than being a no-op. -/
theorem c10_gosub_unknown_label_pushes_frame :
    (∀ (cosD sinD : ℤ → ℤ) (st : BState) (command t : String) (n : Nat),
      (sStartsWith (sUpper command) "PRINT" || sStartsWith (sUpper command) "?") = false →
      sStartsWith (sUpper command) "LET " = false →
      sStartsWith (sUpper command) "INPUT" = false →
      sStartsWith (sUpper command) "IF " = false →
      sStartsWith (sUpper command) "GOTO " = false →
      sStartsWith (sUpper command) "GOSUB " = true →
      sliceFrom command 6 = some t →
      parseU32 (sTrim t) = some n →
      alLookup st.line_numbers n = none →
      basicStep cosD sinD st command
        = some {st with gosub_stack := st.i :: st.gosub_stack, i := st.i + 1})
    ∧ (∀ (cosD sinD : ℤ → ℤ) (st : BState) (command : String) (r : Nat) (rest : List Nat),
      (sStartsWith (sUpper command) "PRINT" || sStartsWith (sUpper command) "?") = false →
      sStartsWith (sUpper command) "LET " = false →
      sStartsWith (sUpper command) "INPUT" = false →
      sStartsWith (sUpper command) "IF " = false →
      sStartsWith (sUpper command) "GOTO " = false →
      sStartsWith (sUpper command) "GOSUB " = false →
      (sUpper command == "RETURN") = true →
      st.gosub_stack = r :: rest →
      basicStep cosD sinD st command = some {st with gosub_stack := rest, i := r}) := by
  constructor
  · intro cosD sinD st command t n h1 h2 h3 h4 h5 h6 ht hn hl
    simp only [basicStep, h1, h2, h3, h4, h5, h6, ht, hn, hl, Option.map_some',
      Bool.false_eq_true, if_false, if_true]
  · intro cosD sinD st command r rest h1 h2 h3 h4 h5 h6 h7 hs
    simp only [basicStep, h1, h2, h3, h4, h5, h6, h7, hs, Bool.false_eq_true,
      if_false, if_true]

/-- C10 (witness): the two halves of the theorem at the probe program's
    initial state — `GOSUB 999` (label 999 unregistered) pushes cursor 0 and
    advances, and `RETURN` with saved position 5 jumps back to 5. -/
theorem c10_witness :
    basicStep cosZ sinZ (initBState progC2) "GOSUB 999"
        = some {initBState progC2 with
                  gosub_stack := (initBState progC2).i :: (initBState progC2).gosub_stack,
                  i := (initBState progC2).i + 1}
    ∧ basicStep cosZ sinZ {initBState progC2 with gosub_stack := [5]} "RETURN"
        = some {{initBState progC2 with gosub_stack := [5]} with gosub_stack := [], i := 5} :=
  ⟨c10_gosub_unknown_label_pushes_frame.1 cosZ sinZ (initBState progC2) "GOSUB 999" "999" 999
      (by rfl) (by rfl) (by rfl) (by rfl) (by rfl) (by rfl) (by rfl) (by rfl) (by rfl),
   c10_gosub_unknown_label_pushes_frame.2 cosZ sinZ {initBState progC2 with gosub_stack := [5]}
      "RETURN" 5 [] (by rfl) (by rfl) (by rfl) (by rfl) (by rfl) (by rfl) (by rfl) (by rfl)⟩

end TimeWarp
